import Mathlib

/-!
Shallow embedding of the telemetry microservice's queue-driven batch
processor (`sqsHandler` in the lambda source) together with the
infrastructure constants of `lib/telemetry-microservice-stack.ts`
that the processor's contract refers to (table key schema, queue
configuration, event-source batch size).

JavaScript values produced by `JSON.parse` are modelled by the `Json`
inductive; JS property access, truthiness, and object-literal spread
are modelled by `getProp`, `truthy` and `spreadProps`.  A DynamoDB
`PutCommand` is modelled by `PutParams` (table name, item, and the
absent condition expression).  Wall-clock time and storage-write
success are nondeterministic inputs of the real handler, so the batch
run is parameterised by a `clock` (ISO-8601 string per message index)
and a `sink` oracle (whether the put for a given message index
succeeds).
-/

/-- A JSON value, as produced by `JSON.parse`.  Numbers are modelled as
integers, which covers every numeric literal appearing in the spec's
scenarios. -/
inductive Json where
  | null
  | bool (b : Bool)
  | num (n : Int)
  | str (s : String)
  | arr (elems : List Json)
  | obj (fields : List (String × Json))

/-- Lookup of a key in a JS object's property list, later bindings
winning, which is both the `JSON.parse` duplicate-key behaviour and the
object-literal override behaviour. -/
def jsGet : List (String × Json) → String → Option Json
  | [], _ => none
  | (k, v) :: rest, key =>
    match jsGet rest key with
    | some w => some w
    | none => if k = key then some v else none

/-- JS property access `v.key` for a non-null value: an object yields the
property (or `undefined`, modelled `none`); any other non-null value has
no such named property, so the access yields `undefined`.  (`null.key`
throws a TypeError and is handled separately in `processRecord`.) -/
def getProp (v : Json) (key : String) : Option Json :=
  match v with
  | Json.obj fields => jsGet fields key
  | _ => none

/-- JS truthiness of a possibly-`undefined` value, as tested by
`!siteId || !body` in the handler: `undefined`, `null`, `false`, `0` and
the empty string are falsy; objects (including the empty object), arrays,
non-zero numbers, non-empty strings and `true` are truthy. -/
def truthy : Option Json → Bool
  | none => false
  | some Json.null => false
  | some (Json.bool b) => b
  | some (Json.num n) => n != 0
  | some (Json.str s) => s != ""
  | some (Json.arr _) => true
  | some (Json.obj _) => true

/-- Own enumerable properties contributed by `...v` in an object literal:
an object spreads its fields, an array and a string spread their elements
under stringified indices, and other primitives spread nothing. -/
def spreadProps : Json → List (String × Json)
  | Json.obj fields => fields
  | Json.arr elems => (List.range elems.length).zip elems |>.map
      (fun p => (toString p.1, p.2))
  | Json.str s => (List.range s.length).zip s.data |>.map
      (fun p => (toString p.1, Json.str (String.mk [p.2])))
  | _ => []

/-- The DynamoDB item built by the handler, the object literal
`\x7b siteId: siteId, ...body, timestamp: new Date().toISOString() \x7d`:
the `siteId` property first, then `body`'s own properties spread in, then
the processor-assigned timestamp, later properties overriding earlier
ones under `jsGet`. -/
def buildItem (siteId body : Json) (ts : String) : List (String × Json) :=
  ("siteId", siteId) :: spreadProps body ++ [("timestamp", Json.str ts)]

/-- Per-message classification from the spec's data model. -/
inductive Outcome where
  | Success
  | SkippedInvalid
  | StorageFailure
deriving DecidableEq, Repr

/-- The parameters of the `PutCommand` the handler sends: table name from
the environment, the built item, and no condition expression (the code
never sets one, so the put is unconditional). -/
structure PutParams where
  tableName : String
  item : List (String × Json)
  conditionExpression : Option String

/-- One raw SQS record as delivered to the handler.  `body` holds the
result of `JSON.parse(record.body)`: `none` when the wire body is not
valid JSON (in which case `JSON.parse` throws). -/
structure SQSRecord where
  body : Option Json

/-- Whether a `JSON.parse` result is the JS value `null`, on which the
handler's `message.siteId` access throws a TypeError. -/
def isNull : Json → Bool
  | Json.null => true
  | _ => false

/-- Processing of one record by the loop body of `sqsHandler`, given the
table name, the wall-clock ISO timestamp at this iteration, and whether
the storage put would succeed.  `Except.error ()` models an exception
escaping the loop body and hence the handler: `JSON.parse` throwing on an
undecodable body, or the TypeError from `message.siteId` when the body
decodes to `null`.  Otherwise the result is the message's `Outcome`
paired with the put that was successfully issued, if any. -/
def processRecord (tableName : String) (r : SQSRecord) (ts : String)
    (sinkOk : Bool) : Except Unit (Outcome × Option PutParams) :=
  match r.body with
  | none => Except.error ()
  | some msg =>
    if isNull msg then Except.error ()
    else
      let siteId := getProp msg "siteId"
      let body := getProp msg "body"
      if truthy siteId && truthy body then
        let item := buildItem (siteId.getD Json.null) (body.getD Json.null) ts
        if sinkOk then
          Except.ok (Outcome.Success, some ⟨tableName, item, none⟩)
        else
          Except.ok (Outcome.StorageFailure, none)
      else
        Except.ok (Outcome.SkippedInvalid, none)

/-- A record whose processing does not throw: its wire body is valid JSON
and does not decode to `null`. -/
def decodable (r : SQSRecord) : Bool :=
  match r.body with
  | none => false
  | some msg => !isNull msg

/-- Result of one handler invocation: the outcomes of the messages that
were processed in order, the items actually written to storage in order
(never rolled back), and whether an exception aborted the loop before the
remaining messages could be processed. -/
structure BatchResult where
  outcomes : List Outcome
  stored : List PutParams
  aborted : Bool

/-- The handler's `for` loop from message index `i` on: each record is
processed in order; an exception aborts the loop (and the handler) at
once, while any non-throwing record contributes its outcome and, on a
successful put, its stored item. -/
def runFrom (tableName : String) (clock : Nat → String) (sink : Nat → Bool) :
    List SQSRecord → Nat → BatchResult
  | [], _ => ⟨[], [], false⟩
  | r :: rest, i =>
    match processRecord tableName r (clock i) (sink i) with
    | Except.error _ => ⟨[], [], true⟩
    | Except.ok (o, w) =>
      let t := runFrom tableName clock sink rest (i + 1)
      ⟨o :: t.outcomes, w.toList ++ t.stored, t.aborted⟩

/-- One invocation of `sqsHandler` on a delivered batch. -/
def runBatch (tableName : String) (clock : Nat → String) (sink : Nat → Bool)
    (records : List SQSRecord) : BatchResult :=
  runFrom tableName clock sink records 0

/-- Acknowledgment as performed by the Lambda/SQS event source for this
function: the `SqsEventSource` is configured without partial-batch
failure reporting, so when the handler resolves normally every message of
the batch is acknowledged (deleted), and when the handler throws no
message is acknowledged and the whole batch is redelivered. -/
def ackedAll (tableName : String) (clock : Nat → String) (sink : Nat → Bool)
    (records : List SQSRecord) : Bool :=
  !(runBatch tableName clock sink records).aborted

/-- The outcome of a record that processes without throwing; helper for
stating per-index facts about `runFrom` on decodable batches (the default
on a throwing record is never reached under `decodable`). -/
def theOutcome (tableName : String) (r : SQSRecord) (ts : String)
    (sinkOk : Bool) : Outcome :=
  match processRecord tableName r ts sinkOk with
  | Except.ok (o, _) => o
  | Except.error _ => Outcome.SkippedInvalid

/-- The put issued by a record that processes without throwing; helper
companion of `theOutcome`. -/
def theWrite (tableName : String) (r : SQSRecord) (ts : String)
    (sinkOk : Bool) : Option PutParams :=
  match processRecord tableName r ts sinkOk with
  | Except.ok (_, w) => w
  | Except.error _ => none

/-- Key schema of a DynamoDB table: attribute names of partition and sort
key. -/
structure TableKeySchema where
  partitionKey : String
  sortKey : String
deriving DecidableEq, Repr

/-- The `TelemetriesStore` table of the stack: partition key `deviceId`,
sort key `creationTimeISO`, both strings. -/
def telemetryTable : TableKeySchema := ⟨"deviceId", "creationTimeISO"⟩

/-- Queue configuration relevant to the broker contract. -/
structure QueueConfig where
  visibilityTimeoutSeconds : Nat
  maxReceiveCount : Nat
  hasDeadLetterQueue : Bool
deriving DecidableEq, Repr

/-- The `TelemetryQueue` of the stack: 60-second visibility timeout and a
dead-letter queue with `maxReceiveCount: 3`. -/
def telemetryQueue : QueueConfig := ⟨60, 3, true⟩

/-- `batchSize: 10` of the `SqsEventSource` wiring the queue to the
processor. -/
def eventSourceBatchSize : Nat := 10

/-- The `SqsEventSource` does not set `reportBatchItemFailures`, so the
handler can only signal failure for the batch as a whole, by throwing. -/
def eventSourceReportsBatchItemFailures : Bool := false

/-! ### Lemmas about property lookup and the built item -/

theorem jsGet_append (l₁ l₂ : List (String × Json)) (key : String) :
    jsGet (l₁ ++ l₂) key =
      match jsGet l₂ key with
      | some v => some v
      | none => jsGet l₁ key := by
  induction l₁ with
  | nil => cases h : jsGet l₂ key <;> simp [jsGet, h]
  | cons a l₁ ih =>
    obtain ⟨k, v⟩ := a
    cases h : jsGet l₂ key <;> cases h' : jsGet l₁ key <;>
      simp [jsGet, ih, h, h']

theorem jsGet_snoc_same (l : List (String × Json)) (k : String) (v : Json) :
    jsGet (l ++ [(k, v)]) k = some v := by
  rw [jsGet_append]; simp [jsGet]

theorem jsGet_snoc_ne (l : List (String × Json)) (k : String) (v : Json)
    (key : String) (h : k ≠ key) :
    jsGet (l ++ [(k, v)]) key = jsGet l key := by
  rw [jsGet_append]
  cases h' : jsGet l key <;> simp [jsGet, h, h']

/-- The processor-assigned timestamp is merged last, so the stored item's
`timestamp` attribute is always the processor's, whatever `body` held. -/
theorem buildItem_timestamp (sv bv : Json) (ts : String) :
    jsGet (buildItem sv bv ts) "timestamp" = some (Json.str ts) := by
  show jsGet (("siteId", sv) :: (spreadProps bv ++ [("timestamp", Json.str ts)]))
      "timestamp" = some (Json.str ts)
  simp [jsGet, jsGet_snoc_same]

/-- When `body` has no `siteId` key, the stored `siteId` attribute is the
message-level one. -/
theorem buildItem_siteId_of_none (sv : Json) (ts : String)
    (bf : List (String × Json)) (h : jsGet bf "siteId" = none) :
    jsGet (buildItem sv (Json.obj bf) ts) "siteId" = some sv := by
  show jsGet (("siteId", sv) :: (spreadProps (Json.obj bf) ++
      [("timestamp", Json.str ts)])) "siteId" = some sv
  have hne : ("timestamp" : String) ≠ "siteId" := by decide
  simp [spreadProps, jsGet, jsGet_snoc_ne _ _ _ _ hne, h]

/-- When `body` has its own `siteId` key, the spread overrides the
message-level `siteId` in the stored item. -/
theorem buildItem_siteId_of_some (sv : Json) (ts : String)
    (bf : List (String × Json)) (v : Json) (h : jsGet bf "siteId" = some v) :
    jsGet (buildItem sv (Json.obj bf) ts) "siteId" = some v := by
  show jsGet (("siteId", sv) :: (spreadProps (Json.obj bf) ++
      [("timestamp", Json.str ts)])) "siteId" = some v
  have hne : ("timestamp" : String) ≠ "siteId" := by decide
  simp [spreadProps, jsGet, jsGet_snoc_ne _ _ _ _ hne, h]

/-- Every top-level key of an object `body` is present in the stored
item. -/
theorem buildItem_key_isSome (sv : Json) (ts : String)
    (bf : List (String × Json)) (k : String) (h : (jsGet bf k).isSome) :
    (jsGet (buildItem sv (Json.obj bf) ts) k).isSome := by
  obtain ⟨w, hw⟩ := Option.isSome_iff_exists.mp h
  by_cases hk : ("timestamp" : String) = k
  · subst hk; simp [buildItem_timestamp]
  · show (jsGet (("siteId", sv) :: (spreadProps (Json.obj bf) ++
        [("timestamp", Json.str ts)])) k).isSome
    simp [spreadProps, jsGet, jsGet_snoc_ne _ _ _ _ hk, hw]

/-! ### Lemmas about record and batch processing -/

/-- A decodable record never throws: its processing yields exactly the
outcome `theOutcome` and the put `theWrite`. -/
theorem processRecord_eq_ok (tn : String) (r : SQSRecord) (ts : String)
    (ok : Bool) (h : decodable r = true) :
    processRecord tn r ts ok =
      Except.ok (theOutcome tn r ts ok, theWrite tn r ts ok) := by
  obtain ⟨b⟩ := r
  cases b with
  | none => simp [decodable] at h
  | some msg =>
    have hn : isNull msg = false := by simpa [decodable] using h
    cases ok <;>
      by_cases hv :
          (truthy (getProp msg "siteId") && truthy (getProp msg "body")) = true <;>
        simp [processRecord, theOutcome, theWrite, hn, hv]

/-- On a batch of decodable records the handler never throws, and every
message receives an outcome. -/
theorem runFrom_decodable (tn : String) (clock : Nat → String)
    (sink : Nat → Bool) (records : List SQSRecord)
    (h : ∀ r ∈ records, decodable r = true) (i : Nat) :
    (runFrom tn clock sink records i).aborted = false ∧
      (runFrom tn clock sink records i).outcomes.length = records.length := by
  induction records generalizing i with
  | nil => simp [runFrom]
  | cons r rest ih =>
    have hr : decodable r = true := h r (List.mem_cons_self r rest)
    have hrest : ∀ r' ∈ rest, decodable r' = true :=
      fun r' hm => h r' (List.mem_cons_of_mem r hm)
    simp only [runFrom, processRecord_eq_ok tn r (clock i) (sink i) hr]
    obtain ⟨h1, h2⟩ := ih hrest (i + 1)
    simp [h1, h2]

/-- Outcome of the `j`-th message of a decodable batch, as a function of
that message alone (its record, its clock instant, its sink response). -/
theorem runFrom_outcome_at (tn : String) (clock : Nat → String)
    (sink : Nat → Bool) (records : List SQSRecord)
    (h : ∀ r ∈ records, decodable r = true) (i j : Nat) :
    (runFrom tn clock sink records i).outcomes[j]? =
      records[j]?.map
        (fun r => theOutcome tn r (clock (i + j)) (sink (i + j))) := by
  induction records generalizing i j with
  | nil => simp [runFrom]
  | cons r rest ih =>
    have hr : decodable r = true := h r (List.mem_cons_self r rest)
    have hrest : ∀ r' ∈ rest, decodable r' = true :=
      fun r' hm => h r' (List.mem_cons_of_mem r hm)
    simp only [runFrom, processRecord_eq_ok tn r (clock i) (sink i) hr]
    cases j with
    | zero => simp
    | succ j =>
      have := ih hrest (i + 1) j
      simp only [List.getElem?_cons_succ, List.getElem?_cons_zero]
      simp only [Nat.add_succ, Nat.succ_add] at this ⊢
      simpa using this

/-- A successful per-message write of a decodable batch is present in the
final stored list: writes are accumulated and never rolled back. -/
theorem runFrom_stored_mem (tn : String) (clock : Nat → String)
    (sink : Nat → Bool) (records : List SQSRecord)
    (h : ∀ r ∈ records, decodable r = true) (i j : Nat) (r : SQSRecord)
    (p : PutParams) (hj : records[j]? = some r)
    (hw : theWrite tn r (clock (i + j)) (sink (i + j)) = some p) :
    p ∈ (runFrom tn clock sink records i).stored := by
  induction records generalizing i j with
  | nil => simp at hj
  | cons r' rest ih =>
    have hr : decodable r' = true := h r' (List.mem_cons_self r' rest)
    have hrest : ∀ x ∈ rest, decodable x = true :=
      fun x hm => h x (List.mem_cons_of_mem r' hm)
    simp only [runFrom, processRecord_eq_ok tn r' (clock i) (sink i) hr]
    cases j with
    | zero =>
      simp only [List.getElem?_cons_zero, Option.some_inj] at hj
      subst hj
      simp only [Nat.add_zero] at hw
      simp [hw]
    | succ j =>
      simp only [List.getElem?_cons_succ] at hj
      have e : i + (j + 1) = i + 1 + j := by omega
      rw [e] at hw
      have := ih hrest (i + 1) j hj hw
      simp [this]

/-- A batch containing a record whose wire body is not valid JSON makes
the handler throw: the run is aborted and fewer outcomes than messages
are produced. -/
theorem runFrom_aborted_of_undecodable (tn : String) (clock : Nat → String)
    (sink : Nat → Bool) (records : List SQSRecord)
    (h : ∃ r ∈ records, r.body = none) (i : Nat) :
    (runFrom tn clock sink records i).aborted = true ∧
      (runFrom tn clock sink records i).outcomes.length < records.length := by
  induction records generalizing i with
  | nil => simp at h
  | cons r rest ih =>
    obtain ⟨r0, hmem, hbad⟩ := h
    cases hp : processRecord tn r (clock i) (sink i) with
    | error e => simp [runFrom, hp]
    | ok q =>
      have hr : r.body ≠ none := by
        intro hb
        rw [processRecord, hb] at hp
        exact Except.noConfusion hp
      have hrest : ∃ x ∈ rest, x.body = none := by
        rcases List.mem_cons.mp hmem with h0 | h0
        · exact absurd (h0 ▸ hbad) hr
        · exact ⟨r0, h0, hbad⟩
      obtain ⟨q1, q2⟩ := q
      obtain ⟨ih1, ih2⟩ := ih hrest (i + 1)
      simp only [runFrom, hp]
      constructor
      · exact ih1
      · simpa using Nat.succ_lt_succ ih2

/-! ### Claim theorems -/

/-- C8: the broker configuration matches the spec's defaults: the event
source delivers at most 10 messages per batch, the queue hides an
unacknowledged message for a 60-second visibility timeout, and after a
maximum receive count of 3 a message goes to the configured dead-letter
queue instead of being redelivered. -/
theorem C8_broker_configuration :
    eventSourceBatchSize = 10 ∧
      telemetryQueue.visibilityTimeoutSeconds = 60 ∧
      telemetryQueue.maxReceiveCount = 3 ∧
      telemetryQueue.hasDeadLetterQueue = true :=
  ⟨rfl, rfl, rfl, rfl⟩

/-- The spec's end-to-end scenario batch: a valid message for site s1, a
message with empty siteId and empty-object body, and a message with no
body at all. -/
def scenarioBatch : List SQSRecord :=
  [⟨some (Json.obj [("siteId", Json.str "s1"),
      ("body", Json.obj [("temp", Json.num 21)])])⟩,
   ⟨some (Json.obj [("siteId", Json.str ""), ("body", Json.obj [])])⟩,
   ⟨some (Json.obj [("siteId", Json.str "s2")])⟩]

/-- C7: on the scenario batch, with the storage sink succeeding, the
outcomes are Success, SkippedInvalid, SkippedInvalid and exactly one
record is stored — the one whose siteId attribute is s1. -/
theorem C7_end_to_end_scenario :
    (runBatch "TelemetriesStore" (fun _ => "2024-01-01T00:00:00.000Z")
        (fun _ => true) scenarioBatch).outcomes =
      [Outcome.Success, Outcome.SkippedInvalid, Outcome.SkippedInvalid] ∧
    (runBatch "TelemetriesStore" (fun _ => "2024-01-01T00:00:00.000Z")
        (fun _ => true) scenarioBatch).stored =
      [⟨"TelemetriesStore",
        [("siteId", Json.str "s1"), ("temp", Json.num 21),
         ("timestamp", Json.str "2024-01-01T00:00:00.000Z")], none⟩] ∧
    (runBatch "TelemetriesStore" (fun _ => "2024-01-01T00:00:00.000Z")
        (fun _ => true) scenarioBatch).stored.map
      (fun p => jsGet p.item "siteId") = [some (Json.str "s1")] :=
  ⟨rfl, rfl, rfl⟩

/-- C1: the write is a point put with no condition expression and its
item carries the siteId and timestamp attributes, as claimed — but the
claim that these match the storage table's key schema fails: the stack
declares the table with partition key deviceId and sort key
creationTimeISO, neither of which is present in the written item, so
every such put would be rejected by the store for missing its key
attributes. -/
theorem C1_table_key_schema_mismatch :
    processRecord "TelemetriesStore"
        ⟨some (Json.obj [("siteId", Json.str "s1"),
          ("body", Json.obj [("temp", Json.num 21)])])⟩
        "2024-01-01T00:00:00.000Z" true =
      Except.ok (Outcome.Success,
        some ⟨"TelemetriesStore",
          [("siteId", Json.str "s1"), ("temp", Json.num 21),
           ("timestamp", Json.str "2024-01-01T00:00:00.000Z")], none⟩) ∧
    telemetryTable.partitionKey = "deviceId" ∧
    telemetryTable.sortKey = "creationTimeISO" ∧
    telemetryTable.partitionKey ≠ "siteId" ∧
    telemetryTable.sortKey ≠ "timestamp" ∧
    jsGet [("siteId", Json.str "s1"), ("temp", Json.num 21),
        ("timestamp", Json.str "2024-01-01T00:00:00.000Z")]
      telemetryTable.partitionKey = none ∧
    jsGet [("siteId", Json.str "s1"), ("temp", Json.num 21),
        ("timestamp", Json.str "2024-01-01T00:00:00.000Z")]
      telemetryTable.sortKey = none :=
  ⟨rfl, rfl, rfl, by decide, by decide, rfl, rfl⟩

/-- C2 counterexample: in a batch whose first record has an undecodable
wire body followed by a perfectly valid message, the decode failure is
fatal: the handler throws, no outcome is produced at all, and the valid
second message is never processed — contradicting the claim that every
other message is still processed and the handler completes normally. -/
theorem C2_decode_failure_aborts_batch_cex :
    (runBatch "T" (fun _ => "TS") (fun _ => true)
        [⟨none⟩,
         ⟨some (Json.obj [("siteId", Json.str "s1"),
            ("body", Json.obj [("temp", Json.num 21)])])⟩]).aborted = true ∧
    (runBatch "T" (fun _ => "TS") (fun _ => true)
        [⟨none⟩,
         ⟨some (Json.obj [("siteId", Json.str "s1"),
            ("body", Json.obj [("temp", Json.num 21)])])⟩]).outcomes = [] :=
  ⟨rfl, rfl⟩

/-- C2 amended: a message whose wire body fails to decode makes
JSON.parse throw out of the handler: the batch run is aborted, strictly
fewer outcomes than messages are produced (messages from the failure on
are not processed), and no message of the batch is acknowledged, so the
broker redelivers the whole batch. -/
theorem C2_decode_failure_fatal (tn : String) (clock : Nat → String)
    (sink : Nat → Bool) (records : List SQSRecord)
    (h : ∃ r ∈ records, r.body = none) :
    (runBatch tn clock sink records).aborted = true ∧
      (runBatch tn clock sink records).outcomes.length < records.length ∧
      ackedAll tn clock sink records = false := by
  obtain ⟨h1, h2⟩ := runFrom_aborted_of_undecodable tn clock sink records h 0
  exact ⟨h1, h2, by simp [ackedAll, runBatch, h1]⟩

/-- Witness for the amended C2 at a concrete two-message batch. -/
theorem C2_decode_failure_fatal_witness :
    (∃ r ∈ [(⟨none⟩ : SQSRecord),
        ⟨some (Json.obj [("siteId", Json.str "s1"),
          ("body", Json.obj [("temp", Json.num 21)])])⟩], r.body = none) ∧
    ((runBatch "T" (fun _ => "TS") (fun _ => true)
        [⟨none⟩,
         ⟨some (Json.obj [("siteId", Json.str "s1"),
            ("body", Json.obj [("temp", Json.num 21)])])⟩]).aborted = true ∧
      (runBatch "T" (fun _ => "TS") (fun _ => true)
        [⟨none⟩,
         ⟨some (Json.obj [("siteId", Json.str "s1"),
            ("body", Json.obj [("temp", Json.num 21)])])⟩]).outcomes.length <
        ([⟨none⟩,
          ⟨some (Json.obj [("siteId", Json.str "s1"),
            ("body", Json.obj [("temp", Json.num 21)])])⟩] :
              List SQSRecord).length ∧
      ackedAll "T" (fun _ => "TS") (fun _ => true)
        [⟨none⟩,
         ⟨some (Json.obj [("siteId", Json.str "s1"),
            ("body", Json.obj [("temp", Json.num 21)])])⟩] = false) :=
  ⟨⟨⟨none⟩, by simp, rfl⟩,
    C2_decode_failure_fatal "T" (fun _ => "TS") (fun _ => true) _
      ⟨⟨none⟩, by simp, rfl⟩⟩

/-- C3 counterexample: a single valid message whose storage write fails
is classified StorageFailure, yet the handler completes normally and the
event source acknowledges the whole batch, so the broker never redelivers
the message — contradicting the claimed acknowledgment mapping. -/
theorem C3_storage_failure_acked_cex :
    (runBatch "T" (fun _ => "TS") (fun _ => false)
        [⟨some (Json.obj [("siteId", Json.str "s1"),
           ("body", Json.obj [("temp", Json.num 21)])])⟩]).outcomes =
      [Outcome.StorageFailure] ∧
    ackedAll "T" (fun _ => "TS") (fun _ => false)
        [⟨some (Json.obj [("siteId", Json.str "s1"),
           ("body", Json.obj [("temp", Json.num 21)])])⟩] = true :=
  ⟨rfl, rfl⟩

/-- C3 amended: acknowledgment is all-or-nothing and independent of
storage outcomes.  On any batch of decodable records — whatever subset of
the storage writes fails — the handler catches and merely logs the write
errors, resolves normally, and every message is acknowledged, including
each one classified StorageFailure; the handler signals failure to the
broker only when a body fails to decode, and then for the whole batch. -/
theorem C3_ack_independent_of_sink (tn : String) (clock : Nat → String)
    (sink : Nat → Bool) (records : List SQSRecord)
    (h : ∀ r ∈ records, decodable r = true) :
    ackedAll tn clock sink records = true := by
  obtain ⟨h1, _⟩ := runFrom_decodable tn clock sink records h 0
  simp [ackedAll, runBatch, h1]

/-- Witness for the amended C3: a decodable batch whose only storage
write fails is still acknowledged in full. -/
theorem C3_ack_independent_of_sink_witness :
    (∀ r ∈ [(⟨some (Json.obj [("siteId", Json.str "s1"),
        ("body", Json.obj [("temp", Json.num 21)])])⟩ : SQSRecord)],
      decodable r = true) ∧
    ackedAll "T" (fun _ => "TS") (fun _ => false)
      [⟨some (Json.obj [("siteId", Json.str "s1"),
        ("body", Json.obj [("temp", Json.num 21)])])⟩] = true :=
  ⟨by decide,
    C3_ack_independent_of_sink "T" (fun _ => "TS") (fun _ => false) _
      (by decide)⟩

/-- C4 counterexample: a message with siteId s1 whose body decodes to the
empty object is not skipped: the empty object is truthy in JS, validation
passes, a storage write is issued and (the sink succeeding) the outcome
is Success, not SkippedInvalid. -/
theorem C4_empty_object_body_cex :
    processRecord "T" ⟨some (Json.obj [("siteId", Json.str "s1"),
        ("body", Json.obj [])])⟩ "TS" true =
      Except.ok (Outcome.Success,
        some ⟨"T",
          [("siteId", Json.str "s1"), ("timestamp", Json.str "TS")],
          none⟩) :=
  rfl

/-- C4 amended: validation is JS truthiness of siteId and body: when
either property is absent or falsy (the empty string, null, false, or 0),
the outcome is SkippedInvalid and no storage write is issued for that
message; a body that decodes to the empty object, however, is truthy and
is not skipped. -/
theorem C4_falsy_fields_skipped (tn ts : String) (ok : Bool) (msg : Json)
    (hn : isNull msg = false)
    (h : truthy (getProp msg "siteId") = false ∨
         truthy (getProp msg "body") = false) :
    processRecord tn ⟨some msg⟩ ts ok =
      Except.ok (Outcome.SkippedInvalid, none) := by
  have hv : (truthy (getProp msg "siteId") && truthy (getProp msg "body"))
      = false := by
    rcases h with h | h <;> simp [h]
  simp [processRecord, hn, hv]

/-- Witness for the amended C4: a message with an empty siteId is skipped
with no write. -/
theorem C4_falsy_fields_skipped_witness :
    isNull (Json.obj [("siteId", Json.str ""),
        ("body", Json.obj [("temp", Json.num 21)])]) = false ∧
    (truthy (getProp (Json.obj [("siteId", Json.str ""),
        ("body", Json.obj [("temp", Json.num 21)])]) "siteId") = false ∨
      truthy (getProp (Json.obj [("siteId", Json.str ""),
        ("body", Json.obj [("temp", Json.num 21)])]) "body") = false) ∧
    processRecord "T" ⟨some (Json.obj [("siteId", Json.str ""),
        ("body", Json.obj [("temp", Json.num 21)])])⟩ "TS" true =
      Except.ok (Outcome.SkippedInvalid, none) :=
  ⟨rfl, Or.inl rfl,
    C4_falsy_fields_skipped "T" "TS" true _ rfl (Or.inl rfl)⟩

/-- C5 counterexample: the message with siteId s1 and body containing its
own siteId field s2 is valid (both fields present and non-empty) and its
write succeeds, yet the single stored record's siteId attribute is s2,
not the message's s1: the body spread overrides the message-level
siteId. -/
theorem C5_body_siteId_overrides_cex :
    processRecord "T" ⟨some (Json.obj [("siteId", Json.str "s1"),
        ("body", Json.obj [("siteId", Json.str "s2")])])⟩ "TS" true =
      Except.ok (Outcome.Success,
        some ⟨"T",
          buildItem (Json.str "s1") (Json.obj [("siteId", Json.str "s2")])
            "TS", none⟩) ∧
    jsGet (buildItem (Json.str "s1") (Json.obj [("siteId", Json.str "s2")])
        "TS") "siteId" = some (Json.str "s2") ∧
    jsGet (buildItem (Json.str "s1") (Json.obj [("siteId", Json.str "s2")])
        "TS") "siteId" ≠ some (Json.str "s1") := by
  refine ⟨rfl, rfl, ?_⟩
  intro hcon
  have h2 : (some (Json.str "s2") : Option Json) = some (Json.str "s1") :=
    hcon
  injection h2 with h3
  injection h3 with h4
  exact absurd h4 (by decide)

/-- C5 amended: for every valid message with an object body, under a
successful storage write the outcome is Success and exactly one record is
written; every top-level key of body is present in the record; the
record's timestamp is the processor-assigned one (overriding any
timestamp key of body); and the record's siteId equals the message's
siteId unless body itself carries a siteId key, in which case body's
value overrides it, body being spread after the siteId property. -/
theorem C5_valid_message_written (tn ts : String) (msg sv : Json)
    (bf : List (String × Json))
    (hsv : getProp msg "siteId" = some sv)
    (hbv : getProp msg "body" = some (Json.obj bf))
    (hts : truthy (some sv) = true) :
    processRecord tn ⟨some msg⟩ ts true =
      Except.ok (Outcome.Success,
        some ⟨tn, buildItem sv (Json.obj bf) ts, none⟩) ∧
    (∀ k, (jsGet bf k).isSome →
      (jsGet (buildItem sv (Json.obj bf) ts) k).isSome) ∧
    jsGet (buildItem sv (Json.obj bf) ts) "timestamp" =
      some (Json.str ts) ∧
    (jsGet bf "siteId" = none →
      jsGet (buildItem sv (Json.obj bf) ts) "siteId" = some sv) ∧
    (∀ v, jsGet bf "siteId" = some v →
      jsGet (buildItem sv (Json.obj bf) ts) "siteId" = some v) := by
  have hn : isNull msg = false := by
    cases msg <;> first | rfl | simp [getProp] at hsv
  have hs : truthy (getProp msg "siteId") = true := by rw [hsv]; exact hts
  have hb : truthy (getProp msg "body") = true := by rw [hbv]; rfl
  refine ⟨?_, ?_, buildItem_timestamp sv (Json.obj bf) ts, ?_, ?_⟩
  · simp [processRecord, hn, hs, hb, hsv, hbv]
    exact ⟨hts, rfl⟩
  · exact fun k hk => buildItem_key_isSome sv ts bf k hk
  · exact fun h => buildItem_siteId_of_none sv ts bf h
  · exact fun v h => buildItem_siteId_of_some sv ts bf v h

/-- Witness for the amended C5 at the message with siteId s1 and body
containing a single temp field. -/
theorem C5_valid_message_written_witness :
    getProp (Json.obj [("siteId", Json.str "s1"),
        ("body", Json.obj [("temp", Json.num 21)])]) "siteId" =
      some (Json.str "s1") ∧
    getProp (Json.obj [("siteId", Json.str "s1"),
        ("body", Json.obj [("temp", Json.num 21)])]) "body" =
      some (Json.obj [("temp", Json.num 21)]) ∧
    truthy (some (Json.str "s1")) = true ∧
    (processRecord "T" ⟨some (Json.obj [("siteId", Json.str "s1"),
        ("body", Json.obj [("temp", Json.num 21)])])⟩ "TS" true =
      Except.ok (Outcome.Success,
        some ⟨"T", buildItem (Json.str "s1")
          (Json.obj [("temp", Json.num 21)]) "TS", none⟩) ∧
    (∀ k, (jsGet [("temp", Json.num 21)] k).isSome →
      (jsGet (buildItem (Json.str "s1") (Json.obj [("temp", Json.num 21)])
        "TS") k).isSome) ∧
    jsGet (buildItem (Json.str "s1") (Json.obj [("temp", Json.num 21)])
        "TS") "timestamp" = some (Json.str "TS") ∧
    (jsGet [("temp", Json.num 21)] "siteId" = none →
      jsGet (buildItem (Json.str "s1") (Json.obj [("temp", Json.num 21)])
        "TS") "siteId" = some (Json.str "s1")) ∧
    (∀ v, jsGet [("temp", Json.num 21)] "siteId" = some v →
      jsGet (buildItem (Json.str "s1") (Json.obj [("temp", Json.num 21)])
        "TS") "siteId" = some v)) :=
  ⟨rfl, rfl, rfl,
    C5_valid_message_written "T" "TS" _ (Json.str "s1")
      [("temp", Json.num 21)] rfl rfl rfl⟩

/-- C6: storage-failure isolation.  In a batch of decodable messages in
which the storage write of message k fails, the handler still completes:
every message receives an outcome; the outcome of every message j ≠ k is
the same as in the counterfactual run whose sink succeeds at k; the put
issued for every message j ≠ k is likewise unchanged; and every
successful per-message put remains in the final stored list, i.e. earlier
writes are not rolled back. -/
theorem C6_storage_failure_isolation (tn : String) (clock : Nat → String)
    (sink : Nat → Bool) (records : List SQSRecord) (k : Nat)
    (hdec : ∀ r ∈ records, decodable r = true) (hk : sink k = false) :
    (runBatch tn clock sink records).aborted = false ∧
    (runBatch tn clock sink records).outcomes.length = records.length ∧
    (∀ j, j ≠ k →
      (runBatch tn clock sink records).outcomes[j]? =
        (runBatch tn clock (fun i => if i = k then true else sink i)
          records).outcomes[j]?) ∧
    (∀ j r, j ≠ k → records[j]? = some r →
      theWrite tn r (clock j) (sink j) =
        theWrite tn r (clock j) (if j = k then true else sink j)) ∧
    (∀ j r p, records[j]? = some r →
      theWrite tn r (clock j) (sink j) = some p →
      p ∈ (runBatch tn clock sink records).stored) := by
  obtain ⟨h1, h2⟩ := runFrom_decodable tn clock sink records hdec 0
  refine ⟨h1, h2, ?_, ?_, ?_⟩
  · intro j hj
    simp only [runBatch]
    rw [runFrom_outcome_at tn clock sink records hdec 0 j,
      runFrom_outcome_at tn clock (fun i => if i = k then true else sink i)
        records hdec 0 j]
    simp [hj]
  · intro j r hj _
    simp [hj]
  · intro j r p hj hw
    have hw' : theWrite tn r (clock (0 + j)) (sink (0 + j)) = some p := by
      simpa using hw
    exact runFrom_stored_mem tn clock sink records hdec 0 j r p hj hw'

/-- The two-message batch used to witness C6: both messages valid. -/
def w6Records : List SQSRecord :=
  [⟨some (Json.obj [("siteId", Json.str "a"),
      ("body", Json.obj [("temp", Json.num 1)])])⟩,
   ⟨some (Json.obj [("siteId", Json.str "b"),
      ("body", Json.obj [("temp", Json.num 2)])])⟩]

/-- Sink oracle for the C6 witness: the write of message 0 fails, every
other write succeeds. -/
def w6Sink : Nat → Bool := fun i => i != 0

/-- Clock for the C6 witness. -/
def w6Clock : Nat → String := fun _ => "TS"

/-- Witness for C6 at a concrete two-message batch whose first write
fails. -/
theorem C6_storage_failure_isolation_witness :
    (∀ r ∈ w6Records, decodable r = true) ∧ w6Sink 0 = false ∧
    ((runBatch "T" w6Clock w6Sink w6Records).aborted = false ∧
    (runBatch "T" w6Clock w6Sink w6Records).outcomes.length =
      w6Records.length ∧
    (∀ j, j ≠ 0 →
      (runBatch "T" w6Clock w6Sink w6Records).outcomes[j]? =
        (runBatch "T" w6Clock (fun i => if i = 0 then true else w6Sink i)
          w6Records).outcomes[j]?) ∧
    (∀ j r, j ≠ 0 → w6Records[j]? = some r →
      theWrite "T" r (w6Clock j) (w6Sink j) =
        theWrite "T" r (w6Clock j) (if j = 0 then true else w6Sink j)) ∧
    (∀ j r p, w6Records[j]? = some r →
      theWrite "T" r (w6Clock j) (w6Sink j) = some p →
      p ∈ (runBatch "T" w6Clock w6Sink w6Records).stored)) :=
  ⟨by decide, rfl,
    C6_storage_failure_isolation "T" w6Clock w6Sink w6Records 0
      (by decide) rfl⟩

/-- C9: for every message that reaches the write step, the stored item's
timestamp attribute is the processor-assigned ISO-8601 instant — merged
last, it overrides any timestamp field inside body — while a siteId field
inside body overrides the message-level siteId in the stored item. -/
theorem C9_timestamp_and_siteId_override (tn ts : String) (msg sv bv : Json)
    (hsv : getProp msg "siteId" = some sv)
    (hbv : getProp msg "body" = some bv)
    (hts : truthy (some sv) = true) (htb : truthy (some bv) = true) :
    processRecord tn ⟨some msg⟩ ts true =
      Except.ok (Outcome.Success,
        some ⟨tn, buildItem sv bv ts, none⟩) ∧
    jsGet (buildItem sv bv ts) "timestamp" = some (Json.str ts) ∧
    (∀ bf v, bv = Json.obj bf → jsGet bf "siteId" = some v →
      jsGet (buildItem sv bv ts) "siteId" = some v) := by
  have hn : isNull msg = false := by
    cases msg <;> first | rfl | simp [getProp] at hsv
  have hs : truthy (getProp msg "siteId") = true := by rw [hsv]; exact hts
  have hb : truthy (getProp msg "body") = true := by rw [hbv]; exact htb
  refine ⟨?_, buildItem_timestamp sv bv ts, ?_⟩
  · simp [processRecord, hn, hsv, hbv]
    exact ⟨hts, htb⟩
  · rintro bf v rfl hv
    exact buildItem_siteId_of_some sv ts bf v hv

/-- Witness for C9 at a message whose body carries both a timestamp and a
siteId field: the stored timestamp is the processor's and the stored
siteId is the body's. -/
theorem C9_timestamp_and_siteId_override_witness :
    getProp (Json.obj [("siteId", Json.str "s1"),
        ("body", Json.obj [("timestamp", Json.str "1999"),
          ("siteId", Json.str "s9")])]) "siteId" = some (Json.str "s1") ∧
    getProp (Json.obj [("siteId", Json.str "s1"),
        ("body", Json.obj [("timestamp", Json.str "1999"),
          ("siteId", Json.str "s9")])]) "body" =
      some (Json.obj [("timestamp", Json.str "1999"),
        ("siteId", Json.str "s9")]) ∧
    truthy (some (Json.str "s1")) = true ∧
    truthy (some (Json.obj [("timestamp", Json.str "1999"),
      ("siteId", Json.str "s9")])) = true ∧
    (processRecord "T" ⟨some (Json.obj [("siteId", Json.str "s1"),
        ("body", Json.obj [("timestamp", Json.str "1999"),
          ("siteId", Json.str "s9")])])⟩ "2024-01-01T00:00:00.000Z" true =
      Except.ok (Outcome.Success,
        some ⟨"T", buildItem (Json.str "s1")
          (Json.obj [("timestamp", Json.str "1999"),
            ("siteId", Json.str "s9")]) "2024-01-01T00:00:00.000Z",
          none⟩) ∧
    jsGet (buildItem (Json.str "s1")
        (Json.obj [("timestamp", Json.str "1999"),
          ("siteId", Json.str "s9")]) "2024-01-01T00:00:00.000Z")
      "timestamp" = some (Json.str "2024-01-01T00:00:00.000Z") ∧
    (∀ bf v,
      Json.obj [("timestamp", Json.str "1999"),
        ("siteId", Json.str "s9")] = Json.obj bf →
      jsGet bf "siteId" = some v →
      jsGet (buildItem (Json.str "s1")
        (Json.obj [("timestamp", Json.str "1999"),
          ("siteId", Json.str "s9")]) "2024-01-01T00:00:00.000Z")
        "siteId" = some v)) :=
  ⟨rfl, rfl, rfl, rfl,
    C9_timestamp_and_siteId_override "T" "2024-01-01T00:00:00.000Z" _
      (Json.str "s1")
      (Json.obj [("timestamp", Json.str "1999"),
        ("siteId", Json.str "s9")]) rfl rfl rfl rfl⟩

/-- C10: validation checks only JS truthiness of body, not that it is an
object: every message with a truthy siteId and a truthy non-object body
(a non-zero number, a non-empty string, or true) passes validation and a
storage write is issued for it. -/
theorem C10_truthy_nonobject_body_written (tn ts : String) (msg sv bv : Json)
    (hsv : getProp msg "siteId" = some sv)
    (hbv : getProp msg "body" = some bv)
    (hts : truthy (some sv) = true) (htb : truthy (some bv) = true)
    (hnotobj : ∀ bf, bv ≠ Json.obj bf) :
    processRecord tn ⟨some msg⟩ ts true =
      Except.ok (Outcome.Success,
        some ⟨tn, buildItem sv bv ts, none⟩) := by
  have hn : isNull msg = false := by
    cases msg <;> first | rfl | simp [getProp] at hsv
  simp [processRecord, hn, hsv, hbv]
  exact ⟨hts, htb⟩

/-- Witness for C10 at the numeric body 5: validation passes and the
write is issued. -/
theorem C10_truthy_nonobject_body_written_witness :
    getProp (Json.obj [("siteId", Json.str "s1"),
        ("body", Json.num 5)]) "siteId" = some (Json.str "s1") ∧
    getProp (Json.obj [("siteId", Json.str "s1"),
        ("body", Json.num 5)]) "body" = some (Json.num 5) ∧
    truthy (some (Json.str "s1")) = true ∧
    truthy (some (Json.num 5)) = true ∧
    (∀ bf, Json.num 5 ≠ Json.obj bf) ∧
    processRecord "T" ⟨some (Json.obj [("siteId", Json.str "s1"),
        ("body", Json.num 5)])⟩ "TS" true =
      Except.ok (Outcome.Success,
        some ⟨"T", buildItem (Json.str "s1") (Json.num 5) "TS", none⟩) :=
  ⟨rfl, rfl, rfl, rfl, fun bf h => Json.noConfusion h,
    C10_truthy_nonobject_body_written "T" "TS" _ (Json.str "s1")
      (Json.num 5) rfl rfl rfl rfl (fun bf h => Json.noConfusion h)⟩
